import Mathlib

/-!
Shallow embedding of the deepsea-ai job-orchestration layer
(`deepsea_ai/config/config.py`, `deepsea_ai/commands/upload_tag.py`,
`deepsea_ai/commands/process.py`) and proofs about its behaviour.

External AWS services (CloudFormation, ECS, S3, SQS, SageMaker) are modelled
as explicit inputs: lookup outcomes are passed in as values, and side effects
are recorded as event traces.
-/

namespace DeepseaAI

/-! ### String helpers mirroring Python primitives -/

/-- Python's substring test `needle in hay`. -/
def strContains (hay needle : String) : Bool :=
  hay.toList.tails.any (fun t => needle.toList.isPrefixOf t)

/-- The suffix after the rightmost occurrence of `sep` in the character
list, `none` when `sep` does not occur. -/
def afterLastAux (sep : List Char) : List Char → Option (List Char)
  | [] => none
  | c :: rest =>
      match afterLastAux sep rest with
      | some t => some t
      | none =>
          if sep.isPrefixOf (c :: rest) then some ((c :: rest).drop sep.length)
          else none

/-- Python's `s.split(sep)[-1]`: the segment after the last occurrence of
`sep` (the whole string when `sep` does not occur). For the separators the
code uses (`"Volumes/"` and `"/"`, neither of which can overlap itself) the
last segment of the left-to-right split is exactly the suffix after the
rightmost occurrence. -/
def lastSplit (s sep : String) : String :=
  match afterLastAux sep.toList s.toList with
  | some t => String.mk t
  | none => s

/-! ### Python `dict` as an insertion-ordered association list -/

/-- `d[k] = v`: update the existing entry in place, else append. -/
def dictSet {α : Type} : List (String × α) → String → α → List (String × α)
  | [], k, v => [(k, v)]
  | (k', v') :: rest, k, v =>
      if k' = k then (k, v) :: rest else (k', v') :: dictSet rest k v

/-- `d.get(k)`. -/
def dictGet {α : Type} : List (String × α) → String → Option α
  | [], _ => none
  | (k', v') :: rest, k => if k' = k then some v' else dictGet rest k

/-! ### `Config.get_resources` (config/config.py lines 160-196)

The CloudFormation `list_stack_resources` call either yields a list of stack
resource summaries or raises a `ClientError` carrying an error code; the ECS
`describe_task_definition` call is modelled as a map from the task-definition
ARN to the `environment` (name, value) list of its first container
definition. -/

structure StackResource where
  resourceType : String
  physicalResourceId : String
deriving DecidableEq

/-- Outcome of `client_cf.list_stack_resources(StackName=stack_name)`. -/
inductive CFOutcome where
  | ok (resources : List StackResource)
  | clientError (code : String)

/-- `key = ['PROCESSOR', 'TRACK_QUEUE', 'VIDEO_QUEUE', 'DEAD_QUEUE',
'TRACK_BUCKET', 'VIDEO_BUCKET']`. -/
def resourceKeys : List String :=
  ["PROCESSOR", "TRACK_QUEUE", "VIDEO_QUEUE", "DEAD_QUEUE",
   "TRACK_BUCKET", "VIDEO_BUCKET"]

/-- Inner loop `for k in key: if k in e['name']: resources[k] = e['value']`. -/
def applyEnvVar (d : List (String × String)) (e : String × String) :
    List (String × String) :=
  resourceKeys.foldl
    (fun d k => if strContains e.1 k then dictSet d k e.2 else d) d

/-- Loop `for e in environment: ...` over the container environment. -/
def applyTaskDef (d : List (String × String)) (env : List (String × String)) :
    List (String × String) :=
  env.foldl applyEnvVar d

/-- Loop `for r in stack_resources['StackResourceSummaries']`: the first
task-definition resource is described and scanned, then the loop `break`s;
autoscaling-group resources seen before it record the `ASG` entry. -/
def scanStack (ecs : String → List (String × String))
    (d : List (String × String)) :
    List StackResource → List (String × String)
  | [] => d
  | r :: rest =>
      if strContains r.resourceType "AWS::ECS::TaskDefinition" then
        applyTaskDef d (ecs r.physicalResourceId)
      else if strContains r.resourceType "AWS::AutoScaling::AutoScalingGroup" then
        scanStack ecs (dictSet d "ASG" r.physicalResourceId) rest
      else
        scanStack ecs d rest

/-- `critical(...)` message on the access-denied path. -/
def accessDeniedMsg : String :=
  "Access denied; verify you are using the correct AWS credentials"

/-- `critical(...)` message on the expired-token path. -/
def expiredTokenMsg : String :=
  "Token expired; you need to re-authenticate your AWS credentials"

/-- `Config.get_resources`: returns the `critical` log lines emitted and
either a raised exception message (`Except.error`), a resource dict
(`Except.ok (some _)`), or the fall-through `return None`
(`Except.ok none`). -/
def get_resources (stack_name : String) (cf : CFOutcome)
    (ecs : String → List (String × String)) :
    List String × Except String (Option (List (String × String))) :=
  match cf with
  | .ok rs => ([], .ok (some (scanStack ecs [("CLUSTER", stack_name)] rs)))
  | .clientError code =>
      if strContains code "AccessDenied" then
        ([accessDeniedMsg], .error "Access denied")
      else if strContains code "ExpiredToken" then
        ([expiredTokenMsg], .error "Token expired")
      else
        ([], .ok none)

/-! ### `Config.get_tags` (config/config.py lines 120-157) -/

/-- `string.ascii_letters`. -/
def asciiLetters : List Char :=
  "abcdefghijklmnopqrstuvwxyzABCDEFGHIJKLMNOPQRSTUVWXYZ".toList

/-- `string.digits`. -/
def asciiDigits : List Char := "0123456789".toList

/-- `allowed = allowed_chars + allowed_letters + allowed_numbers`. -/
def allowedTagChars : List Char :=
  ['+', '-', '=', '.', '_', ':', '/', '@'] ++ asciiLetters ++ asciiDigits

/-- The check the code performs on a tag value:
`any(char in tag['Value'] for char in allowed)` — true when the value
contains at least one allowed character. -/
def tagValuePasses (v : String) : Bool :=
  allowedTagChars.any (fun c => v.toList.contains c)

/-- The check the code's own comment describes ("Special characters are not
allowed in AWS tags"): every character of the value lies in the allowed
class. Stated here to compare with `tagValuePasses`. -/
def tagValueAllClassAllowed (v : String) : Bool :=
  v.toList.all (fun c => allowedTagChars.contains c)

/-- The `[tags]` section values read from `config.ini`. -/
structure TagConfig where
  organization : String
  project_number : String
  stage : String
  application : String
deriving DecidableEq

/-- `tag_dict` as built by `Config.get_tags`. -/
def build_tag_dict (c : TagConfig) (user_name description deletion_date : String) :
    List (String × String) :=
  [(c.organization ++ ":project-number", c.project_number),
   (c.organization ++ ":owner", user_name),
   (c.organization ++ ":description", description),
   (c.organization ++ ":stage", c.stage),
   (c.organization ++ ":application", c.application),
   (c.organization ++ ":deletion-date", deletion_date),
   (c.organization ++ ":created-by", user_name)]

/-- `Config.get_tags`: build `tag_dict`, then raise on the first tag whose
value fails `tagValuePasses`, else return the tag dict. -/
def get_tags (c : TagConfig) (user_name description deletion_date : String) :
    Except String (List (String × String)) :=
  let td := build_tag_dict c user_name description deletion_date
  match td.find? (fun t => !(tagValuePasses t.2)) with
  | some t =>
      .error ("Tag " ++ t.1 ++ " has a value with special characters. " ++
              "Check your config.ini file. Special characters are not " ++
              "allowed in AWS tags, e.g. dots, etc.")
  | none => .ok td

/-! ### `upload_tag.video_data` / `upload_tag.training_data`
(commands/upload_tag.py lines 26-120)

S3 is modelled by a state (the set of object keys present and the per-object
tag sets) together with an error environment that injects the `ClientError`s
the real service may raise on the probe, the byte transfer, and the tagging
call. Side effects are recorded as `UpEff` events. -/

/-- A local video file: its parent directory (POSIX string) and file name. -/
structure VideoFile where
  parent : String
  name : String
deriving DecidableEq

/-- `v.parent.as_posix().split("Volumes/")[-1]`. -/
def stripVolumes (p : String) : String := lastSplit p "Volumes/"

/-- The Python local `target_prefix = f'{input_s3.path}{prefix_path}/{v.name}'`. -/
def target_key (s3path : String) (v : VideoFile) : String :=
  s3path ++ stripVolumes v.parent ++ "/" ++ v.name

/-- Observable S3 effects of one upload run. -/
inductive UpEff where
  | probe (bucket key : String)
  | found (bucket key : String)
  | uploadBytes (bucket key : String)
  | printUploadError
  | putTags (bucket key : String) (tags : List (String × String))
deriving DecidableEq

def UpEff.isUploadBytes : UpEff → Bool
  | .uploadBytes _ _ => true
  | _ => false

/-- Object-store state: keys present and their tag sets. -/
structure S3State where
  objects : List String
  objTags : List (String × List (String × String))
deriving DecidableEq

/-- Error environment: for each key, the injected `ClientError` code (if any)
of the existence probe, the byte transfer, and `put_object_tagging`. -/
structure S3Env where
  probeErr : String → Option String
  uploadErr : String → Option String
  tagErr : String → Option String

/-- The environment in which no call fails. -/
def noErrEnv : S3Env :=
  { probeErr := fun _ => none, uploadErr := fun _ => none, tagErr := fun _ => none }

/-- `s3.upload_fileobj` effect on the store. -/
def addObject (s : S3State) (key : String) : S3State :=
  if s.objects.contains key then s else { s with objects := s.objects ++ [key] }

/-- `s3.put_object_tagging` effect on the store. -/
def putObjectTagging (s : S3State) (key : String)
    (tags : List (String × String)) : S3State :=
  { s with objTags := dictSet s.objTags key tags }

/-- One iteration of the `for v in videos` loop of `video_data`:
probe (`Object(...).load()`), on 404 attempt the upload with a bare
`except: print(...)` around it, on any other probe error re-raise; then
`put_object_tagging`, whose error is re-raised. Returns the new state, the
effect trace of this iteration, and the raised exception if any. -/
def processVideo (env : S3Env) (netloc s3path : String)
    (tags : List (String × String)) (s : S3State) (v : VideoFile) :
    S3State × List UpEff × Option String :=
  let key := target_key s3path v
  let probeOutcome : Option String :=
    match env.probeErr key with
    | some c => some c
    | none => if s.objects.contains key then none else some "404"
  match probeOutcome with
  | some c =>
      if c = "404" then
        match env.uploadErr key with
        | none =>
            let s1 := addObject s key
            match env.tagErr key with
            | none => (putObjectTagging s1 key tags,
                       [.probe netloc key, .uploadBytes netloc key,
                        .putTags netloc key tags], none)
            | some e => (s1, [.probe netloc key, .uploadBytes netloc key], some e)
        | some _ =>
            -- bare `except: print("error in uploading to s3")`: swallowed
            match env.tagErr key with
            | none => (putObjectTagging s key tags,
                       [.probe netloc key, .printUploadError,
                        .putTags netloc key tags], none)
            | some e => (s, [.probe netloc key, .printUploadError], some e)
      else
        (s, [.probe netloc key], some c)
  | none =>
      match env.tagErr key with
      | none => (putObjectTagging s key tags,
                 [.probe netloc key, .found netloc key,
                  .putTags netloc key tags], none)
      | some e => (s, [.probe netloc key, .found netloc key], some e)

/-- `upload_tag.video_data`: iterate `processVideo` over the videos; a raised
exception aborts the loop and propagates. -/
def video_data (env : S3Env) (netloc s3path : String)
    (tags : List (String × String)) (videos : List VideoFile) (s : S3State) :
    S3State × List UpEff × Option String :=
  match videos with
  | [] => (s, [], none)
  | v :: rest =>
      match processVideo env netloc s3path tags s v with
      | (s1, effs, some e) => (s1, effs, some e)
      | (s1, effs, none) =>
          match video_data env netloc s3path tags rest s1 with
          | (s2, effs2, err2) => (s2, effs ++ effs2, err2)

/-- `config.default_training_prefix`. -/
def default_training_prefix : String := "training"

/-- Tail of `upload_tag.training_data` (lines 117-120): the returned
destination prefix and the reported size, `np.round(size_bytes/1e6)`, where
`size_bytes` is the total object-store size under the destination prefix as
returned by `bucket.size`. -/
def training_data_report (netloc prefix_path : String) (size_bytes : ℚ) :
    String × ℤ :=
  ("s3://" ++ netloc ++ "/" ++ prefix_path ++ "/" ++
     default_training_prefix ++ "/",
   round (size_bytes / 1000000))

/-! ### `process.script_processor_run` / `process.batch_run`
(commands/process.py lines 33-159)

Cache writes, the blocking container run, and the queue publish are recorded
as `Ev` events in program order. `JobStatus` and `JobCache` live in
`deepsea_ai/logger/job_cache.py`, which is not part of the source tree; the
status enum is modelled from the spec's status set and the cache writes are
modelled as events carrying the arguments the code passes. -/

/-- Modelled from the spec: the job/media status enum
`QUEUED | RUNNING | SUCCESS | FAILED` of `deepsea_ai.logger.job_cache`,
which is missing from the source tree. -/
inductive JobStatus where
  | QUEUED
  | RUNNING
  | SUCCESS
  | FAILED
deriving DecidableEq

/-- JSON scalar values appearing in the queue message. -/
inductive JVal where
  | s (v : String)
  | q (v : ℚ)
deriving DecidableEq

/-- Observable effects of the two dispatch strategies. -/
inductive Ev where
  | setJob (name processor : String) (media : List String) (status : JobStatus)
  | setMedia (jobName mediaName : String) (status : JobStatus)
  | runContainer (maxRuntimeSeconds : Nat)
  | sendMessage (queue : String) (body : List (String × JVal)) (groupId : String)
deriving DecidableEq

/-- Does the event write the given status to the job cache? -/
def Ev.writesStatus : Ev → JobStatus → Bool
  | .setJob _ _ _ st, q => st = q
  | .setMedia _ _ st, q => st = q
  | _, _ => false

/-- Is the event a job-cache write? -/
def Ev.isCacheWrite : Ev → Bool
  | .setJob _ _ _ _ => true
  | .setMedia _ _ _ => true
  | _ => false

/-- Is the event a network dispatch (container run or queue publish)? -/
def Ev.isDispatch : Ev → Bool
  | .runContainer _ => true
  | .sendMessage _ _ _ => true
  | _ => false

/-- `videos = [obj.key for obj in bucket.objects.filter(Prefix=p)]` followed
by `videos = [video.replace(p, '') for video in videos]`: the bucket listing
restricted to the prefix, with every occurrence of the prefix removed. -/
def listVideos (bucketKeys : List String) (inputPrefix : String) :
    List String :=
  (bucketKeys.filter (fun k => inputPrefix.isPrefixOf k)).map
    (fun k => k.replace inputPrefix "")

/-- `max_runtime_in_seconds=172800` passed to the `ScriptProcessor`. -/
def script_processor_max_runtime : Nat := 172800

/-- `process.script_processor_run`, with the external outcomes as inputs:
`bucketKeys` is the S3 listing of the input bucket, `failed` is whether the
terminal `ProcessingJobStatus` is `'Failed'`, and `reason` the reported
`FailureReason`. Returns the event trace and the raised exception message,
if any. -/
def script_processor_run (tracker user_name imageUri : String)
    (inputNetloc inputPrefix : String) (bucketKeys : List String)
    (failed : Bool) (reason : String) : List Ev × Option String :=
  if ¬(tracker = "deepsort" ∨ tracker = "strongsort") then
    ([], some (tracker ++ " not currently supported"))
  else
    let videos := listVideos bucketKeys inputPrefix
    let base_job_name := tracker ++ "-yolov5-" ++ user_name
    let processor := lastSplit imageUri "/"
    let running :=
      Ev.setJob base_job_name processor videos .RUNNING ::
        videos.map (fun v => Ev.setMedia base_job_name v .RUNNING)
    let dispatched := running ++ [Ev.runContainer script_processor_max_runtime]
    if failed then
      let msg := "Script processor failed for inputs s3://" ++ inputNetloc ++
        "/" ++ inputPrefix ++ ": " ++ reason
      (dispatched ++
         (Ev.setJob base_job_name processor videos .FAILED ::
           videos.map (fun v => Ev.setMedia base_job_name v .FAILED)),
       some msg)
    else
      (dispatched ++
         (Ev.setJob base_job_name processor videos .SUCCESS ::
           videos.map (fun v => Ev.setMedia base_job_name v .SUCCESS)),
       none)

/-- A UTC wall-clock time truncated to the second (the fields
`strftime("%Y%m%dT%H%M%SZ")` reads). -/
structure UTCTime where
  year : Nat
  month : Nat
  day : Nat
  hour : Nat
  minute : Nat
  second : Nat
deriving DecidableEq

/-- Zero-pad to two digits. -/
def pad2 (n : Nat) : String :=
  if n < 10 then "0" ++ toString n else toString n

/-- Zero-pad to four digits. -/
def pad4 (n : Nat) : String :=
  if n < 10 then "000" ++ toString n
  else if n < 100 then "00" ++ toString n
  else if n < 1000 then "0" ++ toString n
  else toString n

/-- `now.strftime("%Y%m%dT%H%M%SZ")`. -/
def strftimeZ (t : UTCTime) : String :=
  pad4 t.year ++ pad2 t.month ++ pad2 t.day ++ "T" ++
    pad2 t.hour ++ pad2 t.minute ++ pad2 t.second ++ "Z"

/-- Modelled from the spec: the function `get_prefix` of the source (imported by `process.py` from
`upload_tag`, but absent from the source tree) derives the storage prefix of
a local video path by stripping the known local mount root from the parent
directory path, preserving the relative subdirectory structure — the same
`split("Volumes/")[-1]` convention `video_data` uses for its keys. -/
def get_prefix_path (v : VideoFile) : String := stripVolumes v.parent

/-- `process.batch_run` for one video: build the message dict, publish it
with the group id `resources['CLUSTER'] + now.strftime(...)`, then record
the job and media as QUEUED. `cluster` and `queue_name` stand for
`resources['CLUSTER']` and `resources['VIDEO_QUEUE']`. -/
def batch_run (cluster queue_name : String) (v : VideoFile)
    (job_name user_name : String) (clean : Bool) (conf_thres iou_thres : ℚ)
    (now : UTCTime) : List Ev :=
  let prefix_path := get_prefix_path v
  let message_dict : List (String × JVal) :=
    [("video", .s (prefix_path ++ "/" ++ v.name)),
     ("clean", .s (if clean then "True" else "False")),
     ("user_name", .s user_name),
     ("job_name", .s job_name),
     ("conf_thres", .q conf_thres),
     ("iou_thres", .q iou_thres)]
  let group_id := strftimeZ now
  [Ev.sendMessage queue_name message_dict (cluster ++ group_id),
   Ev.setJob job_name cluster [v.name] .QUEUED,
   Ev.setMedia job_name v.name .QUEUED]

/-! ## Helper lemmas -/

lemma dictGet_dictSet_self {α : Type} (d : List (String × α)) (k : String) (v : α) :
    dictGet (dictSet d k v) k = some v := by
  induction d with
  | nil => simp [dictSet, dictGet]
  | cons p rest ih =>
      by_cases hp : p.1 = k
      · simp [dictSet, hp, dictGet]
      · simp [dictSet, hp, dictGet, ih]

lemma dictGet_dictSet_ne {α : Type} (d : List (String × α)) (k k' : String) (v : α)
    (h : ¬(k' = k)) : dictGet (dictSet d k' v) k = dictGet d k := by
  induction d with
  | nil => simp [dictSet, dictGet, h]
  | cons p rest ih =>
      by_cases hp : p.1 = k'
      · simp [dictSet, hp, dictGet, h]
      · simp [dictSet, hp, dictGet, ih]

/-- When the stack listing holds no task-definition resource, `scanStack`
can only touch the `ASG` entry. -/
lemma scanStack_no_taskdef (ecs : String → List (String × String))
    (rs : List StackResource) (d : List (String × String)) (k : String)
    (hk : ¬(k = "ASG"))
    (h : ∀ r ∈ rs, strContains r.resourceType "AWS::ECS::TaskDefinition" = false) :
    dictGet (scanStack ecs d rs) k = dictGet d k := by
  induction rs generalizing d with
  | nil => rfl
  | cons r rest ih =>
      have hr := h r (List.mem_cons_self r rest)
      have hrest : ∀ r' ∈ rest, strContains r'.resourceType "AWS::ECS::TaskDefinition" = false :=
        fun r' hmem => h r' (List.mem_cons_of_mem r hmem)
      by_cases hasg : strContains r.resourceType "AWS::AutoScaling::AutoScalingGroup" = true
      · simp only [scanStack, hr, Bool.false_eq_true, if_false, hasg, if_true]
        rw [ih _ hrest, dictGet_dictSet_ne _ _ _ _ (fun he => hk he.symm)]
      · simp only [scanStack, hr, Bool.false_eq_true, if_false, hasg, ih _ hrest]

/-! ## Claim theorems: resource resolution (C1, C9) -/

/-- C1 (counterexample): the claim "get_resources returns either a map
containing every required key or the explicit no-resources result, and in
particular returns no-resources when no task-definition resource exists"
is false: for a stack listing holding only an S3 bucket resource the call
succeeds with the partially-populated map `[("CLUSTER", ...)]`, which
contains none of the required keys and is not the no-resources (`none`)
result. -/
theorem get_resources_partial_map_counterexample :
    (get_resources "demo-cluster" (.ok [⟨"AWS::S3::Bucket", "b"⟩])
        (fun _ => [])).2 = .ok (some [("CLUSTER", "demo-cluster")])
  ∧ resourceKeys.all
      (fun k => (dictGet [("CLUSTER", "demo-cluster")] k).isNone) = true
  ∧ some [("CLUSTER", "demo-cluster")] ≠ (none : Option (List (String × String))) :=
  ⟨rfl, by decide, by decide⟩

/-- C1 (amended): when the stack listing holds no task-definition resource,
`Config.get_resources` still returns a successful resource map — one
containing the `CLUSTER` entry and none of the six required keys — rather
than the no-resources result; partially-populated maps are therefore
possible successful results. -/
theorem get_resources_no_taskdef (name : String) (rs : List StackResource)
    (ecs : String → List (String × String))
    (h : ∀ r ∈ rs, strContains r.resourceType "AWS::ECS::TaskDefinition" = false) :
    ∃ m, (get_resources name (.ok rs) ecs).2 = .ok (some m)
      ∧ dictGet m "CLUSTER" = some name
      ∧ resourceKeys.all (fun k => (dictGet m k).isNone) = true := by
  refine ⟨scanStack ecs [("CLUSTER", name)] rs, rfl, ?_, ?_⟩
  · rw [scanStack_no_taskdef ecs rs _ "CLUSTER" (by decide) h]
    rfl
  · have hk : ∀ k : String, ¬(k = "ASG") → ¬(k = "CLUSTER") →
        (dictGet (scanStack ecs [("CLUSTER", name)] rs) k).isNone = true := by
      intro k h1 h2
      rw [scanStack_no_taskdef ecs rs _ k h1 h]
      have h3 : ¬("CLUSTER" = k) := fun hh => h2 hh.symm
      simp [dictGet, h3]
    simp only [resourceKeys, List.all_cons, List.all_nil, Bool.and_eq_true,
      Bool.and_true]
    exact ⟨hk "PROCESSOR" (by decide) (by decide),
           hk "TRACK_QUEUE" (by decide) (by decide),
           hk "VIDEO_QUEUE" (by decide) (by decide),
           hk "DEAD_QUEUE" (by decide) (by decide),
           hk "TRACK_BUCKET" (by decide) (by decide),
           hk "VIDEO_BUCKET" (by decide) (by decide)⟩

/-- Witness for `get_resources_no_taskdef` at a concrete stack listing. -/
theorem get_resources_no_taskdef_witness :
    ∃ m, (get_resources "demo-cluster" (.ok [⟨"AWS::S3::Bucket", "b"⟩])
        (fun _ => [])).2 = .ok (some m)
      ∧ dictGet m "CLUSTER" = some "demo-cluster"
      ∧ resourceKeys.all (fun k => (dictGet m k).isNone) = true :=
  get_resources_no_taskdef "demo-cluster" [⟨"AWS::S3::Bucket", "b"⟩]
    (fun _ => []) (by decide)

/-- C9 (counterexample): the claim "every non-credential lookup failure is
propagated to the caller as a general resolution failure, not silently
converted into an empty or null result" is false: a `ClientError` with code
`ThrottlingException` is caught and converted into the successful null
result `return None`. -/
theorem get_resources_swallows_other_errors_counterexample :
    get_resources "demo-cluster" (.clientError "ThrottlingException")
        (fun _ => []) = ([], .ok none)
  ∧ (Except.ok (ε := String)
        (none : Option (List (String × String)))).isOk = true :=
  ⟨rfl, rfl⟩

/-- C9 (amended): in `Config.get_resources`, an access-denied `ClientError`
is fatal with the distinct "verify ... credentials" remediation message, an
expired-token `ClientError` is fatal with the distinct "re-authenticate"
message, and every other `ClientError` is caught and turned into the null
result `None` rather than being propagated. -/
theorem get_resources_client_error_cases (name code : String)
    (ecs : String → List (String × String)) :
    (strContains code "AccessDenied" = true →
      get_resources name (.clientError code) ecs
        = ([accessDeniedMsg], .error "Access denied"))
  ∧ (strContains code "AccessDenied" = false →
      strContains code "ExpiredToken" = true →
      get_resources name (.clientError code) ecs
        = ([expiredTokenMsg], .error "Token expired"))
  ∧ (strContains code "AccessDenied" = false →
      strContains code "ExpiredToken" = false →
      get_resources name (.clientError code) ecs = ([], .ok none))
  ∧ accessDeniedMsg ≠ expiredTokenMsg
  ∧ ("Access denied" : String) ≠ "Token expired" := by
  refine ⟨fun h1 => ?_, fun h1 h2 => ?_, fun h1 h2 => ?_, by decide, by decide⟩
  · simp [get_resources, h1]
  · simp [get_resources, h1, h2]
  · simp [get_resources, h1, h2]

/-- Witness for `get_resources_client_error_cases` at concrete error
codes exercising all three cases. -/
theorem get_resources_client_error_cases_witness :
    get_resources "c" (.clientError "AccessDeniedException") (fun _ => [])
        = ([accessDeniedMsg], .error "Access denied")
  ∧ get_resources "c" (.clientError "ExpiredTokenException") (fun _ => [])
        = ([expiredTokenMsg], .error "Token expired")
  ∧ get_resources "c" (.clientError "ValidationError") (fun _ => [])
        = ([], .ok none) :=
  ⟨(get_resources_client_error_cases "c" "AccessDeniedException"
      (fun _ => [])).1 (by decide),
   (get_resources_client_error_cases "c" "ExpiredTokenException"
      (fun _ => [])).2.1 (by decide) (by decide),
   (get_resources_client_error_cases "c" "ValidationError"
      (fun _ => [])).2.2.1 (by decide) (by decide)⟩

/-! ## Claim theorem: tag validation (C2) -/

/-- C2 (code bug): the claim "any tag value containing a character outside
the allowed class is rejected" is violated by the code: the check
`not any(char in value for char in allowed)` only rejects values devoid of
allowed characters, so the value `"ok!"` — which contains the disallowed
character `'!'` — passes validation and `get_tags` returns the tag dict
without raising, contradicting the code's own comment and error message
("Special characters are not allowed in AWS tags"). -/
theorem get_tags_accepts_disallowed_value :
    get_tags ⟨"mbari", "902005", "prod", "deepsea-ai"⟩ "dcline" "ok!"
        "20240101T000000Z"
      = .ok (build_tag_dict ⟨"mbari", "902005", "prod", "deepsea-ai"⟩
              "dcline" "ok!" "20240101T000000Z")
  ∧ '!' ∈ "ok!".toList
  ∧ '!' ∉ allowedTagChars
  ∧ tagValueAllClassAllowed "ok!" = false :=
  ⟨rfl, by decide, by decide, by decide⟩

/-! ## Helper lemmas for the upload model -/

/-- In the error-free environment, `processVideo` reduces to: tag if
present, upload-then-tag if absent. -/
lemma processVideo_noErr (netloc s3path : String)
    (tags : List (String × String)) (s : S3State) (v : VideoFile) :
    processVideo noErrEnv netloc s3path tags s v =
      (if s.objects.contains (target_key s3path v) then
        (putObjectTagging s (target_key s3path v) tags,
         [.probe netloc (target_key s3path v),
          .found netloc (target_key s3path v),
          .putTags netloc (target_key s3path v) tags], none)
      else
        (putObjectTagging (addObject s (target_key s3path v))
           (target_key s3path v) tags,
         [.probe netloc (target_key s3path v),
          .uploadBytes netloc (target_key s3path v),
          .putTags netloc (target_key s3path v) tags], none)) := by
  by_cases hc : target_key s3path v ∈ s.objects <;>
    simp [processVideo, noErrEnv, hc]

lemma processVideo_noErr_err (netloc s3path : String)
    (tags : List (String × String)) (s : S3State) (v : VideoFile) :
    (processVideo noErrEnv netloc s3path tags s v).2.2 = none := by
  rw [processVideo_noErr]
  by_cases hc : target_key s3path v ∈ s.objects <;> simp [hc]

lemma processVideo_contains_mono (netloc s3path : String)
    (tags : List (String × String)) (s : S3State) (v : VideoFile) (k : String)
    (h : s.objects.contains k = true) :
    (processVideo noErrEnv netloc s3path tags s v).1.objects.contains k = true := by
  rw [processVideo_noErr]
  have hm : k ∈ s.objects := List.elem_iff.mp h
  by_cases hc : target_key s3path v ∈ s.objects
  · simp [hc, putObjectTagging, hm]
  · simp [hc, putObjectTagging, addObject, hm]

lemma processVideo_key_contains (netloc s3path : String)
    (tags : List (String × String)) (s : S3State) (v : VideoFile) :
    (processVideo noErrEnv netloc s3path tags s v).1.objects.contains
      (target_key s3path v) = true := by
  rw [processVideo_noErr]
  by_cases hc : target_key s3path v ∈ s.objects
  · simp [hc, putObjectTagging]
  · simp [hc, putObjectTagging, addObject]

lemma processVideo_tags_self (netloc s3path : String)
    (tags : List (String × String)) (s : S3State) (v : VideoFile) :
    dictGet (processVideo noErrEnv netloc s3path tags s v).1.objTags
      (target_key s3path v) = some tags := by
  rw [processVideo_noErr]
  by_cases hc : target_key s3path v ∈ s.objects <;>
    simp [hc, putObjectTagging, dictGet_dictSet_self]

lemma processVideo_tags_mono (netloc s3path : String)
    (tags : List (String × String)) (s : S3State) (v : VideoFile) (k : String)
    (h : dictGet s.objTags k = some tags) :
    dictGet (processVideo noErrEnv netloc s3path tags s v).1.objTags k
      = some tags := by
  rw [processVideo_noErr]
  by_cases he : target_key s3path v = k
  · subst he
    by_cases hc : target_key s3path v ∈ s.objects <;>
      simp [hc, putObjectTagging, dictGet_dictSet_self]
  · by_cases hc : target_key s3path v ∈ s.objects <;>
      simp [hc, putObjectTagging, addObject, dictGet_dictSet_ne _ _ _ _ he, h]

lemma video_data_noErr_err (netloc s3path : String)
    (tags : List (String × String)) (videos : List VideoFile) (s : S3State) :
    (video_data noErrEnv netloc s3path tags videos s).2.2 = none := by
  induction videos generalizing s with
  | nil => rfl
  | cons v rest ih =>
      have hv := processVideo_noErr_err netloc s3path tags s v
      rcases hp : processVideo noErrEnv netloc s3path tags s v with ⟨s1, effs, err⟩
      rw [hp] at hv
      replace hv : err = none := hv
      subst hv
      simp only [video_data, hp, ih]

lemma video_data_contains_mono (netloc s3path : String)
    (tags : List (String × String)) (videos : List VideoFile) (s : S3State)
    (k : String) (h : s.objects.contains k = true) :
    (video_data noErrEnv netloc s3path tags videos s).1.objects.contains k = true := by
  induction videos generalizing s with
  | nil => exact h
  | cons v rest ih =>
      have hv := processVideo_noErr_err netloc s3path tags s v
      have hm := processVideo_contains_mono netloc s3path tags s v k h
      rcases hp : processVideo noErrEnv netloc s3path tags s v with ⟨s1, effs, err⟩
      rw [hp] at hv hm
      replace hv : err = none := hv
      replace hm : s1.objects.contains k = true := hm
      subst hv
      simp only [video_data, hp]
      exact ih s1 hm

lemma video_data_key_contains (netloc s3path : String)
    (tags : List (String × String)) (videos : List VideoFile) (s : S3State)
    (v : VideoFile) (hv : v ∈ videos) :
    (video_data noErrEnv netloc s3path tags videos s).1.objects.contains
      (target_key s3path v) = true := by
  induction videos generalizing s with
  | nil => cases hv
  | cons w rest ih =>
      have hw := processVideo_noErr_err netloc s3path tags s w
      rcases hp : processVideo noErrEnv netloc s3path tags s w with ⟨s1, effs, err⟩
      rw [hp] at hw
      replace hw : err = none := hw
      subst hw
      simp only [video_data, hp]
      rcases List.mem_cons.mp hv with heq | hmem
      · subst heq
        have hk := processVideo_key_contains netloc s3path tags s v
        rw [hp] at hk
        replace hk : s1.objects.contains (target_key s3path v) = true := hk
        exact video_data_contains_mono netloc s3path tags rest s1 _ hk
      · exact ih s1 hmem

lemma video_data_tags_mono (netloc s3path : String)
    (tags : List (String × String)) (videos : List VideoFile) (s : S3State)
    (k : String) (h : dictGet s.objTags k = some tags) :
    dictGet (video_data noErrEnv netloc s3path tags videos s).1.objTags k
      = some tags := by
  induction videos generalizing s with
  | nil => exact h
  | cons v rest ih =>
      have hv := processVideo_noErr_err netloc s3path tags s v
      have hm := processVideo_tags_mono netloc s3path tags s v k h
      rcases hp : processVideo noErrEnv netloc s3path tags s v with ⟨s1, effs, err⟩
      rw [hp] at hv hm
      replace hv : err = none := hv
      replace hm : dictGet s1.objTags k = some tags := hm
      subst hv
      simp only [video_data, hp]
      exact ih s1 hm

lemma video_data_tags (netloc s3path : String)
    (tags : List (String × String)) (videos : List VideoFile) (s : S3State)
    (v : VideoFile) (hv : v ∈ videos) :
    dictGet (video_data noErrEnv netloc s3path tags videos s).1.objTags
      (target_key s3path v) = some tags := by
  induction videos generalizing s with
  | nil => cases hv
  | cons w rest ih =>
      have hw := processVideo_noErr_err netloc s3path tags s w
      rcases hp : processVideo noErrEnv netloc s3path tags s w with ⟨s1, effs, err⟩
      rw [hp] at hw
      replace hw : err = none := hw
      subst hw
      simp only [video_data, hp]
      rcases List.mem_cons.mp hv with heq | hmem
      · subst heq
        have hset := processVideo_tags_self netloc s3path tags s v
        rw [hp] at hset
        replace hset : dictGet s1.objTags (target_key s3path v) = some tags := hset
        exact video_data_tags_mono netloc s3path tags rest s1 _ hset
      · exact ih s1 hmem

lemma video_data_no_upload_when_present (netloc s3path : String)
    (tags : List (String × String)) (videos : List VideoFile) (s : S3State)
    (h : ∀ v ∈ videos, s.objects.contains (target_key s3path v) = true) :
    (video_data noErrEnv netloc s3path tags videos s).2.1.all
      (fun e => !e.isUploadBytes) = true := by
  induction videos generalizing s with
  | nil => rfl
  | cons v rest ih =>
      have hv := processVideo_noErr_err netloc s3path tags s v
      have heffs : (processVideo noErrEnv netloc s3path tags s v).2.1.all
          (fun e => !e.isUploadBytes) = true := by
        rw [processVideo_noErr]
        have hc : target_key s3path v ∈ s.objects :=
          List.elem_iff.mp (h v (List.mem_cons_self v rest))
        simp [hc, UpEff.isUploadBytes]
      rcases hp : processVideo noErrEnv netloc s3path tags s v with ⟨s1, effs, err⟩
      rw [hp] at hv heffs
      replace hv : err = none := hv
      replace heffs : effs.all (fun e => !e.isUploadBytes) = true := heffs
      subst hv
      simp only [video_data, hp, List.all_append, Bool.and_eq_true]
      refine ⟨heffs, ih s1 ?_⟩
      intro w hw
      have hs : s.objects.contains (target_key s3path w) = true :=
        h w (List.mem_cons_of_mem v hw)
      have hmono := processVideo_contains_mono netloc s3path tags s v _ hs
      rw [hp] at hmono
      exact hmono

/-! ## Claim theorems: upload (C3, C4, C7, C8) -/

/-- C3: `upload_tag.video_data` is idempotent in effect: running it twice
over the same file set against the same destination (in the environment
where no storage call fails) transfers no bytes on the second run — the
existence probe finds every object present, so no `uploadBytes` effect
occurs — and after either run every target object carries the full tag
set. -/
theorem video_data_idempotent (netloc s3path : String)
    (tags : List (String × String)) (videos : List VideoFile) (s0 : S3State) :
    ((video_data noErrEnv netloc s3path tags videos
        (video_data noErrEnv netloc s3path tags videos s0).1).2.1.all
        (fun e => !e.isUploadBytes) = true)
  ∧ (videos.all (fun v =>
        (video_data noErrEnv netloc s3path tags videos s0).1.objects.contains
          (target_key s3path v)) = true)
  ∧ (videos.all (fun v =>
        decide (dictGet (video_data noErrEnv netloc s3path tags videos s0).1.objTags
          (target_key s3path v) = some tags)) = true)
  ∧ (videos.all (fun v =>
        decide (dictGet (video_data noErrEnv netloc s3path tags videos
            (video_data noErrEnv netloc s3path tags videos s0).1).1.objTags
          (target_key s3path v) = some tags)) = true) := by
  refine ⟨?_, ?_, ?_, ?_⟩
  · exact video_data_no_upload_when_present netloc s3path tags videos _
      (fun v hv => video_data_key_contains netloc s3path tags videos s0 v hv)
  · rw [List.all_eq_true]
    exact fun v hv => video_data_key_contains netloc s3path tags videos s0 v hv
  · rw [List.all_eq_true]
    intro v hv
    rw [decide_eq_true_eq]
    exact video_data_tags netloc s3path tags videos s0 v hv
  · rw [List.all_eq_true]
    intro v hv
    rw [decide_eq_true_eq]
    exact video_data_tags netloc s3path tags videos _ v hv

/-- C4 (counterexample): the claim "any other storage error during the byte
transfer itself ... is propagated unmodified to the caller" is false: with a
`SlowDown` error injected into the byte transfer of an absent object,
`video_data` completes without raising (the bare `except: print(...)` at
line 55 swallows the error and records only a printed message), and then
still applies the tagging call. -/
theorem video_data_swallows_transfer_error_counterexample :
    (video_data ⟨fun _ => none, fun _ => some "SlowDown", fun _ => none⟩
        "bucket" "/in/" [] [⟨"/Volumes/d", "clip.mp4"⟩] ⟨[], []⟩).2.2 = none
  ∧ (video_data ⟨fun _ => none, fun _ => some "SlowDown", fun _ => none⟩
        "bucket" "/in/" [] [⟨"/Volumes/d", "clip.mp4"⟩] ⟨[], []⟩).2.1.contains
        .printUploadError = true
  ∧ (video_data ⟨fun _ => none, fun _ => some "SlowDown", fun _ => none⟩
        "bucket" "/in/" [] [⟨"/Volumes/d", "clip.mp4"⟩] ⟨[], []⟩).2.1.contains
        (.putTags "bucket" "/in/d/clip.mp4" []) = true :=
  ⟨rfl, rfl, rfl⟩

/-- C4 (amended): in `upload_tag.video_data`, a "404" existence-probe result
triggers an upload of the file rather than failure; a probe error with any
other code is propagated without uploading; a tagging error is propagated;
but an error during the byte transfer itself is caught by the bare `except`
and only printed — execution continues to the tagging call and the transfer
error is never propagated. A raised error aborts the loop and reaches the
caller. -/
theorem video_data_error_propagation (env : S3Env) (netloc s3path : String)
    (tags : List (String × String)) (s : S3State) (v : VideoFile)
    (rest : List VideoFile) :
    (env.probeErr (target_key s3path v) = none →
      s.objects.contains (target_key s3path v) = false →
      env.uploadErr (target_key s3path v) = none →
      (processVideo env netloc s3path tags s v).2.1.contains
        (.uploadBytes netloc (target_key s3path v)) = true)
  ∧ (∀ c, env.probeErr (target_key s3path v) = some c → ¬(c = "404") →
      (processVideo env netloc s3path tags s v).2.2 = some c
      ∧ (processVideo env netloc s3path tags s v).2.1.all
          (fun e => !e.isUploadBytes) = true)
  ∧ (∀ e, env.probeErr (target_key s3path v) = none →
      env.tagErr (target_key s3path v) = some e →
      (processVideo env netloc s3path tags s v).2.2 = some e)
  ∧ (∀ e', env.probeErr (target_key s3path v) = none →
      s.objects.contains (target_key s3path v) = false →
      env.uploadErr (target_key s3path v) = some e' →
      (processVideo env netloc s3path tags s v).2.1.contains
        .printUploadError = true
      ∧ (processVideo env netloc s3path tags s v).2.2
          = env.tagErr (target_key s3path v))
  ∧ (∀ e, (processVideo env netloc s3path tags s v).2.2 = some e →
      (video_data env netloc s3path tags (v :: rest) s).2.2 = some e) := by
  refine ⟨?_, ?_, ?_, ?_, ?_⟩
  · intro h1 h2 h3
    have h2' : target_key s3path v ∉ s.objects := by
      intro hm
      have hc : s.objects.contains (target_key s3path v) = true :=
        List.elem_iff.mpr hm
      rw [h2] at hc
      exact Bool.noConfusion hc
    rcases ht : env.tagErr (target_key s3path v) with _ | e <;>
      simp [processVideo, h1, h2', h3, ht]
  · intro c h1 h2
    simp [processVideo, h1, h2, UpEff.isUploadBytes]
  · intro e h1 h2
    by_cases h3 : s.objects.contains (target_key s3path v) = true
    · have h3' : target_key s3path v ∈ s.objects := List.elem_iff.mp h3
      simp [processVideo, h1, h2, h3']
    · have h3' : target_key s3path v ∉ s.objects := by
        intro hmem
        exact h3 (List.elem_iff.mpr hmem)
      rcases hu : env.uploadErr (target_key s3path v) with _ | e' <;>
        simp [processVideo, h1, h2, h3', hu]
  · intro e' h1 h2 h3
    have h2' : target_key s3path v ∉ s.objects := by
      intro hm
      have hc : s.objects.contains (target_key s3path v) = true :=
        List.elem_iff.mpr hm
      rw [h2] at hc
      exact Bool.noConfusion hc
    rcases ht : env.tagErr (target_key s3path v) with _ | e <;>
      simp [processVideo, h1, h2', h3, ht]
  · intro e h
    rcases hp : processVideo env netloc s3path tags s v with ⟨s1, effs, err⟩
    rw [hp] at h
    replace h : err = some e := h
    subst h
    simp only [video_data, hp]

/-- Witness for `video_data_error_propagation` at concrete environments
exercising each of its cases. -/
theorem video_data_error_propagation_witness :
    ((processVideo ⟨fun _ => none, fun _ => none, fun _ => none⟩ "b" "/in/" []
        ⟨[], []⟩ ⟨"/Volumes/d", "c.mp4"⟩).2.1.contains
        (.uploadBytes "b" "/in/d/c.mp4") = true)
  ∧ ((processVideo ⟨fun _ => some "AccessDenied", fun _ => none, fun _ => none⟩
        "b" "/in/" [] ⟨[], []⟩ ⟨"/Volumes/d", "c.mp4"⟩).2.2 = some "AccessDenied"
      ∧ (processVideo ⟨fun _ => some "AccessDenied", fun _ => none, fun _ => none⟩
          "b" "/in/" [] ⟨[], []⟩ ⟨"/Volumes/d", "c.mp4"⟩).2.1.all
          (fun e => !e.isUploadBytes) = true)
  ∧ ((processVideo ⟨fun _ => none, fun _ => none, fun _ => some "TagDenied"⟩
        "b" "/in/" [] ⟨[], []⟩ ⟨"/Volumes/d", "c.mp4"⟩).2.2 = some "TagDenied")
  ∧ ((processVideo ⟨fun _ => none, fun _ => some "SlowDown", fun _ => none⟩
        "b" "/in/" [] ⟨[], []⟩ ⟨"/Volumes/d", "c.mp4"⟩).2.1.contains
        .printUploadError = true
      ∧ (processVideo ⟨fun _ => none, fun _ => some "SlowDown", fun _ => none⟩
          "b" "/in/" [] ⟨[], []⟩ ⟨"/Volumes/d", "c.mp4"⟩).2.2 = none)
  ∧ ((video_data ⟨fun _ => some "AccessDenied", fun _ => none, fun _ => none⟩
        "b" "/in/" [] [⟨"/Volumes/d", "c.mp4"⟩] ⟨[], []⟩).2.2
        = some "AccessDenied") :=
  ⟨(video_data_error_propagation ⟨fun _ => none, fun _ => none, fun _ => none⟩
      "b" "/in/" [] ⟨[], []⟩ ⟨"/Volumes/d", "c.mp4"⟩ []).1 rfl rfl rfl,
   (video_data_error_propagation
      ⟨fun _ => some "AccessDenied", fun _ => none, fun _ => none⟩
      "b" "/in/" [] ⟨[], []⟩ ⟨"/Volumes/d", "c.mp4"⟩ []).2.1
      "AccessDenied" rfl (by decide),
   (video_data_error_propagation
      ⟨fun _ => none, fun _ => none, fun _ => some "TagDenied"⟩
      "b" "/in/" [] ⟨[], []⟩ ⟨"/Volumes/d", "c.mp4"⟩ []).2.2.1
      "TagDenied" rfl rfl,
   ⟨((video_data_error_propagation
      ⟨fun _ => none, fun _ => some "SlowDown", fun _ => none⟩
      "b" "/in/" [] ⟨[], []⟩ ⟨"/Volumes/d", "c.mp4"⟩ []).2.2.2.1
      "SlowDown" rfl rfl rfl).1,
    ((video_data_error_propagation
      ⟨fun _ => none, fun _ => some "SlowDown", fun _ => none⟩
      "b" "/in/" [] ⟨[], []⟩ ⟨"/Volumes/d", "c.mp4"⟩ []).2.2.2.1
      "SlowDown" rfl rfl rfl).2⟩,
   (video_data_error_propagation
      ⟨fun _ => some "AccessDenied", fun _ => none, fun _ => none⟩
      "b" "/in/" [] ⟨[], []⟩ ⟨"/Volumes/d", "c.mp4"⟩ []).2.2.2.2
      "AccessDenied" rfl⟩

/-- C7 (counterexample): the claim "uploading /mnt/data/dive1/clip1.mp4 to
destination prefix s3://bucket/in/ with mount root /mnt/data produces target
key in/dive1/clip1.mp4" is false: the code strips only the hard-coded
`"Volumes/"` marker, so for a parent directory `/mnt/data/dive1` nothing is
stripped and the key is `/in//mnt/data/dive1/clip1.mp4` (the URL path
`/in/` including its leading slash, then the full parent path). -/
theorem target_key_mount_root_counterexample :
    target_key "/in/" ⟨"/mnt/data/dive1", "clip1.mp4"⟩
        = "/in//mnt/data/dive1/clip1.mp4"
  ∧ ("/in//mnt/data/dive1/clip1.mp4" : String) ≠ "in/dive1/clip1.mp4" :=
  ⟨rfl, by decide⟩

/-- C7 (amended): the upload target key is the destination URL path
(leading slash included) followed by the portion of the file's parent
directory after the last occurrence of the fixed mount-root marker
`"Volumes/"` (the whole parent path when the marker is absent) and the file
name: uploading `/Volumes/data/dive1/clip1.mp4` to `s3://bucket/in/` yields
key `/in/data/dive1/clip1.mp4`, while `/mnt/data/dive1/clip1.mp4` yields
`/in//mnt/data/dive1/clip1.mp4`. -/
theorem target_key_volumes_root :
    target_key "/in/" ⟨"/Volumes/data/dive1", "clip1.mp4"⟩
        = "/in/data/dive1/clip1.mp4"
  ∧ target_key "/in/" ⟨"/mnt/data/dive1", "clip1.mp4"⟩
        = "/in//mnt/data/dive1/clip1.mp4" :=
  ⟨rfl, rfl⟩

/-- C8 (code bug): the claim (and the function's own docstring, "Size in GB
of training data") says the upload reports the total size in gigabytes, but
`training_data` returns `np.round(size_bytes/1e6)` — megabytes: for a total
of 2,000,000,000 bytes the reported number is 2000, while the byte count
converted to GB is 2. -/
theorem training_data_size_not_gb :
    (training_data_report "bucket" "data" 2000000000).2 = 2000
  ∧ (2000000000 : ℚ) / 1000000000 = 2
  ∧ ((2000 : ℤ) ≠ 2)
  ∧ (training_data_report "bucket" "data" 2000000000).1
      = "s3://bucket/data/training/" := by
  refine ⟨?_, by norm_num, by decide, rfl⟩
  rw [training_data_report, round_eq]
  norm_num

/-! ## Helper lemmas for the dispatch model -/

lemma strContains_append_right (a b : String) : strContains (a ++ b) b = true := by
  unfold strContains
  rw [List.any_eq_true]
  refine ⟨b.toList, ?_, List.isPrefixOf_iff_prefix.mpr (List.prefix_refl _)⟩
  have hl : (a ++ b).toList = a.toList ++ b.toList := rfl
  rw [hl]
  exact (List.mem_tails _ _).mpr (List.suffix_append _ _)

/-- Under a supported tracker, `script_processor_run` produces exactly:
the RUNNING cache writes, the blocking container run, then the terminal
cache writes, together with the raised failure message when the terminal
status is `Failed`. -/
lemma script_processor_run_eq (tracker user imageUri inputNetloc inputPrefix : String)
    (bucketKeys : List String) (failed : Bool) (reason : String)
    (h : tracker = "deepsort" ∨ tracker = "strongsort") :
    script_processor_run tracker user imageUri inputNetloc inputPrefix
        bucketKeys failed reason =
      ((Ev.setJob (tracker ++ "-yolov5-" ++ user) (lastSplit imageUri "/")
          (listVideos bucketKeys inputPrefix) .RUNNING ::
          (listVideos bucketKeys inputPrefix).map
            (fun v => Ev.setMedia (tracker ++ "-yolov5-" ++ user) v .RUNNING))
        ++ [Ev.runContainer script_processor_max_runtime]
        ++ (if failed then
              Ev.setJob (tracker ++ "-yolov5-" ++ user) (lastSplit imageUri "/")
                (listVideos bucketKeys inputPrefix) .FAILED ::
                (listVideos bucketKeys inputPrefix).map
                  (fun v => Ev.setMedia (tracker ++ "-yolov5-" ++ user) v .FAILED)
            else
              Ev.setJob (tracker ++ "-yolov5-" ++ user) (lastSplit imageUri "/")
                (listVideos bucketKeys inputPrefix) .SUCCESS ::
                (listVideos bucketKeys inputPrefix).map
                  (fun v => Ev.setMedia (tracker ++ "-yolov5-" ++ user) v .SUCCESS)),
       if failed then
         some ("Script processor failed for inputs s3://" ++ inputNetloc ++
           "/" ++ inputPrefix ++ ": " ++ reason)
       else none) := by
  rw [script_processor_run, if_neg (not_not_intro h)]
  cases failed <;> rfl

/-! ## Claim theorems: dispatch (C5, C6, C10) -/

/-- C5: `script_processor_run` (for a supported tracker) marks the job and
every video listed under the resolved input prefix RUNNING — never writing
QUEUED at any point — then blocks on the container execution with the
172800-second (48-hour) maximum-runtime ceiling, and afterwards marks the
job and all listed videos FAILED and raises an error carrying the reported
failure reason when the terminal status is failure, and otherwise marks
them all SUCCESS and raises nothing. -/
theorem script_processor_run_spec (tracker user imageUri inputNetloc inputPrefix : String)
    (bucketKeys : List String) (failed : Bool) (reason : String)
    (h : tracker = "deepsort" ∨ tracker = "strongsort") :
    ((script_processor_run tracker user imageUri inputNetloc inputPrefix
        bucketKeys failed reason).1.all
        (fun e => !(e.writesStatus .QUEUED)) = true)
  ∧ (script_processor_run tracker user imageUri inputNetloc inputPrefix
        bucketKeys failed reason).1 =
      (Ev.setJob (tracker ++ "-yolov5-" ++ user) (lastSplit imageUri "/")
          (listVideos bucketKeys inputPrefix) .RUNNING ::
          (listVideos bucketKeys inputPrefix).map
            (fun v => Ev.setMedia (tracker ++ "-yolov5-" ++ user) v .RUNNING))
        ++ [Ev.runContainer script_processor_max_runtime]
        ++ (if failed then
              Ev.setJob (tracker ++ "-yolov5-" ++ user) (lastSplit imageUri "/")
                (listVideos bucketKeys inputPrefix) .FAILED ::
                (listVideos bucketKeys inputPrefix).map
                  (fun v => Ev.setMedia (tracker ++ "-yolov5-" ++ user) v .FAILED)
            else
              Ev.setJob (tracker ++ "-yolov5-" ++ user) (lastSplit imageUri "/")
                (listVideos bucketKeys inputPrefix) .SUCCESS ::
                (listVideos bucketKeys inputPrefix).map
                  (fun v => Ev.setMedia (tracker ++ "-yolov5-" ++ user) v .SUCCESS))
  ∧ script_processor_max_runtime = 48 * 60 * 60
  ∧ (script_processor_run tracker user imageUri inputNetloc inputPrefix
        bucketKeys failed reason).2 =
      (if failed then
        some ("Script processor failed for inputs s3://" ++ inputNetloc ++
          "/" ++ inputPrefix ++ ": " ++ reason)
       else none)
  ∧ strContains ("Script processor failed for inputs s3://" ++ inputNetloc ++
      "/" ++ inputPrefix ++ ": " ++ reason) reason = true := by
  have heq := script_processor_run_eq tracker user imageUri inputNetloc
    inputPrefix bucketKeys failed reason h
  refine ⟨?_, ?_, rfl, ?_, ?_⟩
  · rw [heq]
    cases failed <;>
      simp [Ev.writesStatus, List.all_append, List.all_map, List.all_cons]
  · rw [heq]
  · rw [heq]
  · exact strContains_append_right _ reason

/-- Witness for `script_processor_run_spec` at a concrete failed run with
the `deepsort` tracker. -/
theorem script_processor_run_spec_witness :
    ((script_processor_run "deepsort" "dcline" "acct.dkr.ecr.r.amazonaws.com/img:1"
        "bkt" "in/" ["in/a.mp4"] true "oom").1.all
        (fun e => !(e.writesStatus .QUEUED)) = true)
  ∧ (script_processor_run "deepsort" "dcline" "acct.dkr.ecr.r.amazonaws.com/img:1"
        "bkt" "in/" ["in/a.mp4"] true "oom").2 =
      (if true then
        some ("Script processor failed for inputs s3://" ++ "bkt" ++
          "/" ++ "in/" ++ ": " ++ "oom")
       else none)
  ∧ strContains ("Script processor failed for inputs s3://" ++ "bkt" ++
      "/" ++ "in/" ++ ": " ++ "oom") "oom" = true :=
  ⟨(script_processor_run_spec "deepsort" "dcline" "acct.dkr.ecr.r.amazonaws.com/img:1"
      "bkt" "in/" ["in/a.mp4"] true "oom" (Or.inl rfl)).1,
   (script_processor_run_spec "deepsort" "dcline" "acct.dkr.ecr.r.amazonaws.com/img:1"
      "bkt" "in/" ["in/a.mp4"] true "oom" (Or.inl rfl)).2.2.2.1,
   (script_processor_run_spec "deepsort" "dcline" "acct.dkr.ecr.r.amazonaws.com/img:1"
      "bkt" "in/" ["in/a.mp4"] true "oom" (Or.inl rfl)).2.2.2.2⟩

/-- C6: every queued submission of one video publishes a JSON object with
exactly the fields `video`, `clean` (the string "True" or "False"),
`user_name`, `job_name`, `conf_thres`, `iou_thres` carrying the caller's
values (the `video` field being the video's storage key), under the
message-group id formed of the cluster name concatenated with the UTC
timestamp truncated to the second, and marks the (job, video) pair QUEUED
in the job cache. -/
theorem batch_run_spec (cluster queue_name : String) (v : VideoFile)
    (job_name user_name : String) (clean : Bool) (conf_thres iou_thres : ℚ)
    (now : UTCTime) :
    (∃ body,
      Ev.sendMessage queue_name body (cluster ++ strftimeZ now)
          ∈ batch_run cluster queue_name v job_name user_name clean
              conf_thres iou_thres now
      ∧ body.map Prod.fst
          = ["video", "clean", "user_name", "job_name", "conf_thres", "iou_thres"]
      ∧ dictGet body "video" = some (.s (get_prefix_path v ++ "/" ++ v.name))
      ∧ dictGet body "clean" = some (.s (if clean then "True" else "False"))
      ∧ dictGet body "user_name" = some (.s user_name)
      ∧ dictGet body "job_name" = some (.s job_name)
      ∧ dictGet body "conf_thres" = some (.q conf_thres)
      ∧ dictGet body "iou_thres" = some (.q iou_thres)
      ∧ ((if clean then "True" else "False") = "True"
          ∨ (if clean then "True" else "False") = "False"))
  ∧ Ev.setJob job_name cluster [v.name] .QUEUED
      ∈ batch_run cluster queue_name v job_name user_name clean
          conf_thres iou_thres now
  ∧ Ev.setMedia job_name v.name .QUEUED
      ∈ batch_run cluster queue_name v job_name user_name clean
          conf_thres iou_thres now := by
  refine ⟨⟨[("video", .s (get_prefix_path v ++ "/" ++ v.name)),
            ("clean", .s (if clean then "True" else "False")),
            ("user_name", .s user_name),
            ("job_name", .s job_name),
            ("conf_thres", .q conf_thres),
            ("iou_thres", .q iou_thres)], ?_, rfl, rfl, rfl, rfl, rfl, rfl, rfl, ?_⟩, ?_, ?_⟩
  · simp [batch_run]
  · cases clean <;> simp
  · simp [batch_run]
  · simp [batch_run]

/-- C10 (counterexample): the claim "the initial status is written before
the network dispatch call for both strategies" is false for the queued
strategy: in a concrete `batch_run` trace the queue publish is the first
event and every cache write (the QUEUED marks) comes after it. -/
theorem batch_run_cache_after_dispatch_counterexample :
    ((batch_run "demo-cluster" "demo-video-q" ⟨"/Volumes/d", "clip1.mp4"⟩
        "DiveV1" "dcline" true (1/100) (1/10) ⟨2023, 1, 2, 3, 4, 5⟩).any
        Ev.isDispatch = true)
  ∧ ((batch_run "demo-cluster" "demo-video-q" ⟨"/Volumes/d", "clip1.mp4"⟩
        "DiveV1" "dcline" true (1/100) (1/10) ⟨2023, 1, 2, 3, 4, 5⟩).any
        Ev.isCacheWrite = true)
  ∧ ¬((batch_run "demo-cluster" "demo-video-q" ⟨"/Volumes/d", "clip1.mp4"⟩
        "DiveV1" "dcline" true (1/100) (1/10) ⟨2023, 1, 2, 3, 4, 5⟩).findIdx
        Ev.isCacheWrite
      < (batch_run "demo-cluster" "demo-video-q" ⟨"/Volumes/d", "clip1.mp4"⟩
        "DiveV1" "dcline" true (1/100) (1/10) ⟨2023, 1, 2, 3, 4, 5⟩).findIdx
        Ev.isDispatch) := by
  refine ⟨rfl, rfl, ?_⟩
  decide

/-- C10 (amended): within one invocation the cache writes are strictly
ordered by the submission code path, but the two strategies differ: the
scripted strategy writes the RUNNING statuses before the container dispatch
and the terminal statuses after it, while the queued strategy publishes the
queue message first and writes the QUEUED statuses after the publish. -/
theorem cache_write_ordering (tracker user imageUri inputNetloc inputPrefix : String)
    (bucketKeys : List String) (failed : Bool) (reason : String)
    (cluster queue_name : String) (v : VideoFile) (job_name user_name : String)
    (clean : Bool) (conf_thres iou_thres : ℚ) (now : UTCTime)
    (h : tracker = "deepsort" ∨ tracker = "strongsort") :
    (∃ pre post,
      (script_processor_run tracker user imageUri inputNetloc inputPrefix
          bucketKeys failed reason).1
        = pre ++ [Ev.runContainer script_processor_max_runtime] ++ post
      ∧ pre ≠ []
      ∧ pre.all (fun e => e.isCacheWrite && e.writesStatus .RUNNING) = true
      ∧ post ≠ []
      ∧ post.all (fun e => e.isCacheWrite
          && e.writesStatus (if failed then .FAILED else .SUCCESS)) = true)
  ∧ (∃ d writes,
      batch_run cluster queue_name v job_name user_name clean
          conf_thres iou_thres now = d :: writes
      ∧ d.isDispatch = true
      ∧ writes ≠ []
      ∧ writes.all (fun e => e.isCacheWrite && e.writesStatus .QUEUED) = true) := by
  constructor
  · refine ⟨Ev.setJob (tracker ++ "-yolov5-" ++ user) (lastSplit imageUri "/")
        (listVideos bucketKeys inputPrefix) .RUNNING ::
        (listVideos bucketKeys inputPrefix).map
          (fun w => Ev.setMedia (tracker ++ "-yolov5-" ++ user) w .RUNNING),
      (if failed then
        Ev.setJob (tracker ++ "-yolov5-" ++ user) (lastSplit imageUri "/")
          (listVideos bucketKeys inputPrefix) .FAILED ::
          (listVideos bucketKeys inputPrefix).map
            (fun w => Ev.setMedia (tracker ++ "-yolov5-" ++ user) w .FAILED)
       else
        Ev.setJob (tracker ++ "-yolov5-" ++ user) (lastSplit imageUri "/")
          (listVideos bucketKeys inputPrefix) .SUCCESS ::
          (listVideos bucketKeys inputPrefix).map
            (fun w => Ev.setMedia (tracker ++ "-yolov5-" ++ user) w .SUCCESS)),
      ?_, ?_, ?_, ?_, ?_⟩
    · rw [script_processor_run_eq tracker user imageUri inputNetloc inputPrefix
        bucketKeys failed reason h]
    · simp
    · simp [Ev.isCacheWrite, Ev.writesStatus, List.all_map, List.all_cons]
    · cases failed <;> simp
    · cases failed <;>
        simp [Ev.isCacheWrite, Ev.writesStatus, List.all_map, List.all_cons]
  · refine ⟨_, _, rfl, rfl, ?_, ?_⟩
    · simp
    · simp [Ev.isCacheWrite, Ev.writesStatus]

/-- Witness for `cache_write_ordering` at concrete arguments for both
strategies. -/
theorem cache_write_ordering_witness :
    (∃ pre post,
      (script_processor_run "deepsort" "dcline" "a/img:1" "bkt" "in/"
          ["in/a.mp4"] false "").1
        = pre ++ [Ev.runContainer script_processor_max_runtime] ++ post
      ∧ pre ≠ []
      ∧ pre.all (fun e => e.isCacheWrite && e.writesStatus .RUNNING) = true
      ∧ post ≠ []
      ∧ post.all (fun e => e.isCacheWrite
          && e.writesStatus (if false then .FAILED else .SUCCESS)) = true)
  ∧ (∃ d writes,
      batch_run "demo-cluster" "demo-video-q" ⟨"/Volumes/d", "clip1.mp4"⟩
          "DiveV1" "dcline" true (1/100) (1/10) ⟨2023, 1, 2, 3, 4, 5⟩
        = d :: writes
      ∧ d.isDispatch = true
      ∧ writes ≠ []
      ∧ writes.all (fun e => e.isCacheWrite && e.writesStatus .QUEUED) = true) :=
  cache_write_ordering "deepsort" "dcline" "a/img:1" "bkt" "in/" ["in/a.mp4"]
    false "" "demo-cluster" "demo-video-q" ⟨"/Volumes/d", "clip1.mp4"⟩
    "DiveV1" "dcline" true (1/100) (1/10) ⟨2023, 1, 2, 3, 4, 5⟩ (Or.inl rfl)

end DeepseaAI
